import Mathlib

/-!
Verification development for the CloudFlarevector repository (the
"Genesis Data Manager"): a React frontend (SetupForm, UploadPanel, App)
driving a FastAPI/Milvus ingestion backend.  The frontend TypeScript is
embedded directly from the source files.  The backend pipeline
(ConfigVault, CoherenceGuard, upload responses) is documented in the
repository README and the specification but its Python source is not in
the snapshot; those parts are modelled from the spec, each such
definition marked in its doc comment.
-/

/-- An embedding vector: a finite sequence of numeric components.
Similarity scores are modelled as exact rationals. -/
abbrev EmbeddingVector := List ℚ

/-- Modelled from the spec: the backend vector store (Milvus) is not in
the snapshot.  Per spec section 4.4 and 9 it is an injected capability
holding the collection of previously inserted vectors together with a
cosine-similarity function. -/
structure VectorStore where
  collection : List EmbeddingVector
  sim : EmbeddingVector → EmbeddingVector → ℚ

/-- Modelled from the spec: the top-1 nearest-neighbour query of
CoherenceGuard.  Returns the best-match cosine similarity of a vector
against the collection, or none when the collection is empty ("no
match", not an error). -/
def queryNearest (store : VectorStore) (v : EmbeddingVector) : Option ℚ :=
  match store.collection with
  | [] => none
  | c :: cs => some ((cs.map (store.sim v)).foldl max (store.sim v c))

/-- Modelled from the spec: the duplicate-rejection similarity
threshold, 0.98. -/
def THRESHOLD : ℚ := 98 / 100

/-- Modelled from the spec: does a best-match score meet or exceed the
threshold?  A missing score (empty collection) never does. -/
def scoreMeets : Option ℚ → Bool
  | none => false
  | some q => decide (THRESHOLD ≤ q)

/-- Modelled from the spec: the maximum similarity observed across the
batch, reported on rejection (at least one observed score is at or
above the positive threshold whenever this value is reported). -/
def maxSim (scores : List (Option ℚ)) : ℚ :=
  (scores.filterMap id).foldl max 0

/-- The result of one ingestion attempt, spec section 3: either
rejected or accepted, never both. -/
inductive UploadOutcome where
  | rejected (duplicate_chunk_count : Nat) (matched_similarity : ℚ)
  | accepted (inserted_vector_count : Nat)
deriving DecidableEq

/-- Is the outcome a rejection? -/
def UploadOutcome.isRejected : UploadOutcome → Bool
  | .rejected _ _ => true
  | .accepted _ => false

/-- Modelled from the spec: the CoherenceGuard decision, spec section
4.4.  Every chunk's best-match similarity is computed; if any meets or
exceeds the threshold the whole batch is rejected, carrying the count
of chunks that individually triggered the threshold and the maximum
similarity observed; otherwise all vectors are accepted. -/
def coherenceGuard (store : VectorStore) (batch : List EmbeddingVector) : UploadOutcome :=
  let scores := batch.map (queryNearest store)
  let dupCount := scores.countP scoreMeets
  if dupCount = 0 then
    UploadOutcome.accepted batch.length
  else
    UploadOutcome.rejected dupCount (maxSim scores)

/-- The outcome of an ingestion together with the store state after it
(the collection grows only on acceptance). -/
structure IngestResult where
  outcome : UploadOutcome
  store : VectorStore

/-- Modelled from the spec: the commit step of CoherenceGuard.  On
rejection nothing is inserted; on acceptance the whole batch is
inserted in one logical operation. -/
def ingest (store : VectorStore) (batch : List EmbeddingVector) : IngestResult :=
  match coherenceGuard store batch with
  | UploadOutcome.rejected n s => ⟨UploadOutcome.rejected n s, store⟩
  | UploadOutcome.accepted n => ⟨UploadOutcome.accepted n, ⟨store.collection ++ batch, store.sim⟩⟩

/-- The allowed upload extensions, from allowedExtensions in
UploadPanel. -/
def allowedExtensions : List String := [".pdf", ".md", ".txt", ".json"]

/-- Does the first character list begin with the second?  Helper for
suffix matching on reversed lists. -/
def beginsWith : List Char → List Char → Bool
  | _, [] => true
  | [], _ :: _ => false
  | a :: as, b :: bs => a == b && beginsWith as bs

/-- JavaScript String.endsWith, on character lists. -/
def suffixMatch (s ext : List Char) : Bool :=
  beginsWith s.reverse ext.reverse

/-- The extension guard of UploadPanel.handleFile:
file.name.toLowerCase().endsWith(ext) for some allowed extension. -/
def isAllowed (name : String) : Bool :=
  allowedExtensions.any fun ext => suffixMatch (name.data.map Char.toLower) ext.data

/-- The JSON body of a response from the upload endpoint as read by
UploadPanel.handleFile; fields that may be absent are options. -/
structure UploadResponse where
  duplicate_message : Option String
  duplicate_chunks : Option Nat
  inserted_vectors : Option Nat
deriving DecidableEq

/-- The fixed duplicate notice text from the README. -/
def duplicateNotice : String := "DUPLICATE REJECTED (Coherence Already Maxed)"

/-- Modelled from the spec: the upload endpoint's response body for
each outcome, spec section 6: on rejection a duplicate message and the
duplicate chunk count, on acceptance the inserted-vector count. -/
def renderOutcome : UploadOutcome → UploadResponse
  | UploadOutcome.rejected n _ => ⟨some duplicateNotice, some n, none⟩
  | UploadOutcome.accepted n => ⟨none, none, some n⟩

/-- JavaScript truthiness of the optional duplicate_message string
field: absent and empty strings are falsy. -/
def truthyMsg : Option String → Bool
  | none => false
  | some s => !(s == "")

/-- The status message computed by UploadPanel.handleFile from a
successful response: the duplicate branch when data.duplicate_message
is truthy, otherwise the success branch. -/
def uploadMessage (data : UploadResponse) : String :=
  if truthyMsg data.duplicate_message then
    (data.duplicate_message.getD "") ++ " (" ++
      toString (data.duplicate_chunks.getD 0) ++ " matching segments)"
  else
    "Success. " ++ toString (data.inserted_vectors.getD 0) ++
      " vectors anchored to χ-Memory."

/-- The observable effects of UploadPanel.handleFile, in program
order. -/
inductive UploadEvent where
  | errorSet (msg : String)
  | errorCleared
  | uploadStartCb
  | requestIssued
  | uploadCompleteCb (msg : String)
deriving DecidableEq

/-- The result of the axios POST issued by handleFile: a parsed
response body, or a failure carrying the optional error detail. -/
inductive RequestResult where
  | success (data : UploadResponse)
  | failure (detail : Option String)

/-- UploadPanel.handleFile as a trace of observable events, given the
file name and the result the upload request would produce.  A
disallowed extension only sets the local error; an allowed one invokes
onUploadStart, clears the error, issues the request, and finally
invokes onUploadComplete on both the success and the failure path. -/
def handleFile (name : String) (result : RequestResult) : List UploadEvent :=
  if isAllowed name then
    [UploadEvent.uploadStartCb, UploadEvent.errorCleared, UploadEvent.requestIssued] ++
      (match result with
       | RequestResult.success data =>
           [UploadEvent.uploadCompleteCb (uploadMessage data)]
       | RequestResult.failure detail =>
           [UploadEvent.errorSet (detail.getD "Upload failed."),
            UploadEvent.uploadCompleteCb "Upload failed."])
  else
    [UploadEvent.errorSet "Unsupported file type."]

/-- Does an event invoke the onUploadStart callback? -/
def isStartEvent : UploadEvent → Bool
  | UploadEvent.uploadStartCb => true
  | _ => false

/-- Does an event invoke the onUploadComplete callback? -/
def isCompleteEvent : UploadEvent → Bool
  | UploadEvent.uploadCompleteCb _ => true
  | _ => false

/-- The state held by SetupForm: one field per controlled input. -/
structure SetupFormState where
  cloudflareUrl : String
  apiKey : String
  collectionName : String
  identity : String
deriving DecidableEq

/-- The initial SetupForm state: empty fields except the identity,
whose useState initialiser is "David Lowe". -/
def initialSetupFormState : SetupFormState :=
  ⟨"", "", "", "David Lowe"⟩

/-- The setCloudflareUrl state update. -/
def setCloudflareUrl (st : SetupFormState) (v : String) : SetupFormState :=
  { st with cloudflareUrl := v }

/-- The setApiKey state update. -/
def setApiKey (st : SetupFormState) (v : String) : SetupFormState :=
  { st with apiKey := v }

/-- The setCollectionName state update. -/
def setCollectionName (st : SetupFormState) (v : String) : SetupFormState :=
  { st with collectionName := v }

/-- The setup payload posted by SetupForm.handleSubmit. -/
structure SetupPayload where
  cloudflare_url : String
  api_key : String
  collection_name : String
  identity : String
deriving DecidableEq

/-- The payload SetupForm.handleSubmit builds from the current form
state. -/
def buildPayload (st : SetupFormState) : SetupPayload :=
  ⟨st.cloudflareUrl, st.apiKey, st.collectionName, st.identity⟩

/-- The persisted configuration record, spec section 3. -/
structure VaultRecord where
  endpoint_url : String
  api_key : String
  collection_name : String
  identity : String
deriving DecidableEq

/-- The public status view, spec section 4.1: a configured flag plus
optional identity and collection name; there is no api_key field. -/
structure ConfigStatus where
  configured : Bool
  identity : Option String
  collection_name : Option String
deriving DecidableEq

/-- Is a string non-empty? -/
def nonEmptyStr (s : String) : Bool :=
  !s.data.isEmpty

/-- Modelled from the spec: the well-formed-URL validation of setup;
the backend validator is not in the snapshot, so a URL is taken to be
well-formed when it uses an http or https scheme. -/
def urlWellFormed (s : String) : Bool :=
  beginsWith s.data "http://".data || beginsWith s.data "https://".data

/-- Modelled from the spec: setup validation, spec section 4.1 — every
required field non-empty and the endpoint a well-formed URL. -/
def validRecord (r : VaultRecord) : Bool :=
  nonEmptyStr r.endpoint_url && nonEmptyStr r.api_key &&
    nonEmptyStr r.collection_name && nonEmptyStr r.identity &&
    urlWellFormed r.endpoint_url

/-- Modelled from the spec: ConfigVault.status, spec section 4.1.  The
vault state is the optional singleton record. -/
def vaultStatus : Option VaultRecord → ConfigStatus
  | none => ⟨false, none, none⟩
  | some r => ⟨true, some r.identity, some r.collection_name⟩

/-- Modelled from the spec: ConfigVault.setup — validates the record,
overwrites any prior record on success, fails with a ValidationError
otherwise. -/
def vaultSetup (_st : Option VaultRecord) (r : VaultRecord) :
    Except String (Option VaultRecord) :=
  if validRecord r then Except.ok (some r) else Except.error "ValidationError"

/-- Modelled from the spec: ConfigVault.reset — unconditionally deletes
the stored record; always succeeds. -/
def vaultReset (_st : Option VaultRecord) : Except String (Option VaultRecord) :=
  Except.ok none

/-- Byte sequences, as natural numbers. -/
abbrev Bytes := List Nat

/-- Modelled from the spec: the keystream of the symmetric cipher
underlying the Fernet-style vault encryption. -/
def keystream (k i : Nat) : Nat :=
  (k + i * i + 7) % 256

/-- Modelled from the spec: XOR of a byte sequence against the
keystream starting at position i; applying it twice restores the
input. -/
def xorStream (k i : Nat) : Bytes → Bytes
  | [] => []
  | b :: bs => (b ^^^ keystream k i) :: xorStream k (i + 1) bs

/-- An injective encoding of a byte sequence into one natural
number. -/
def encodeBytes : Bytes → Nat
  | [] => 0
  | b :: bs => Nat.pair b (encodeBytes bs) + 1

/-- Modelled from the spec: the authentication tag of the Fernet-style
scheme, keyed and message-dependent. -/
def macTag (k : Nat) (m : Bytes) : Nat :=
  Nat.pair k (encodeBytes m)

/-- An authenticated ciphertext: encrypted body plus tag. -/
structure Ciphertext where
  body : Bytes
  tag : Nat
deriving DecidableEq

/-- Modelled from the spec: Fernet-style authenticated encryption of a
byte sequence. -/
def fernetEncrypt (k : Nat) (m : Bytes) : Ciphertext :=
  ⟨xorStream k 0 m, macTag k m⟩

/-- Modelled from the spec: authenticated decryption — decode the body
and accept only when the tag verifies, otherwise fail with an
integrity error (none). -/
def fernetDecrypt (k : Nat) (c : Ciphertext) : Option Bytes :=
  let m := xorStream k 0 c.body
  if macTag k m = c.tag then some m else none

/-- The bytes of a string: its character codes. -/
def stringBytes (s : String) : Bytes :=
  s.data.map Char.toNat

/-- The serialized bytes of a VaultRecord, field values separated by a
zero byte. -/
def vaultRecordBytes (r : VaultRecord) : Bytes :=
  stringBytes r.endpoint_url ++ [0] ++ stringBytes r.api_key ++ [0] ++
    stringBytes r.collection_name ++ [0] ++ stringBytes r.identity

/-- A store whose best-match similarity is always exactly 0.98, for
the inclusive-boundary instance. -/
def storeAt98 : VectorStore :=
  ⟨[[1]], fun _ _ => 98 / 100⟩

/-- A store whose best-match similarity is always 0.9799999, just
below the threshold. -/
def storeBelow98 : VectorStore :=
  ⟨[[1]], fun _ _ => 9799999 / 10000000⟩

/-- A store against which the vector [1] scores 0.99 and every other
vector scores 0.10, for the mixed-batch instance. -/
def storeMixed : VectorStore :=
  ⟨[[0]], fun v _ => if v = [1] then 99 / 100 else 1 / 10⟩

/-- A score meets the threshold exactly when it is present and at or
above THRESHOLD. -/
theorem scoreMeets_iff (o : Option ℚ) :
    scoreMeets o = true ↔ ∃ s, o = some s ∧ THRESHOLD ≤ s := by
  cases o <;> simp [scoreMeets]

/-- Claim C1: an upload batch is rejected exactly when some chunk's
best-match cosine similarity meets or exceeds 0.98; the boundary is
inclusive (a best match of exactly 0.98 is rejected, one of 0.9799999
is accepted). -/
theorem coherence_threshold_inclusive :
    (∀ (store : VectorStore) (batch : List EmbeddingVector),
      (coherenceGuard store batch).isRejected = true ↔
        ∃ v ∈ batch, ∃ s, queryNearest store v = some s ∧ THRESHOLD ≤ s) ∧
    coherenceGuard storeAt98 [[1]] = UploadOutcome.rejected 1 (98 / 100) ∧
    coherenceGuard storeBelow98 [[1]] = UploadOutcome.accepted 1 := by
  refine ⟨?_, ?_, ?_⟩
  · intro store batch
    simp only [coherenceGuard]
    by_cases h : (batch.map (queryNearest store)).countP scoreMeets = 0
    · rw [if_pos h]
      simp only [UploadOutcome.isRejected, Bool.false_eq_true, false_iff]
      rintro ⟨v, hv, s, hq, hs⟩
      exact List.countP_eq_zero.mp h _ (List.mem_map_of_mem _ hv)
        ((scoreMeets_iff _).mpr ⟨s, hq, hs⟩)
    · rw [if_neg h]
      simp only [UploadOutcome.isRejected, true_iff]
      obtain ⟨a, ha, hsm⟩ := List.countP_pos_iff.mp (Nat.pos_of_ne_zero h)
      obtain ⟨v, hv, rfl⟩ := List.mem_map.mp ha
      obtain ⟨s, hq, hs⟩ := (scoreMeets_iff _).mp hsm
      exact ⟨v, hv, s, hq, hs⟩
  · have hm : scoreMeets (some (98 / 100)) = true :=
      decide_eq_true (by norm_num [THRESHOLD])
    simp [coherenceGuard, queryNearest, storeAt98, maxSim, hm, List.countP_cons]
    norm_num
  · have hm : scoreMeets (some (9799999 / 10000000)) = false :=
      decide_eq_false (by norm_num [THRESHOLD])
    simp [coherenceGuard, queryNearest, storeBelow98, hm, List.countP_cons]

/-- Claim C2: duplicate rejection is atomic — whenever some chunk of the
batch meets the threshold, zero vectors are inserted (the collection
is unchanged) and the rejected outcome carries the count of chunks
that individually met the threshold together with the maximum observed
similarity. -/
theorem atomic_rejection :
    ∀ (store : VectorStore) (batch : List EmbeddingVector),
      (∃ v ∈ batch, scoreMeets (queryNearest store v) = true) →
      (ingest store batch).store.collection = store.collection ∧
      (ingest store batch).outcome =
        UploadOutcome.rejected
          ((batch.map (queryNearest store)).countP scoreMeets)
          (maxSim (batch.map (queryNearest store))) := by
  intro store batch h
  obtain ⟨v, hv, hsm⟩ := h
  have hne : (batch.map (queryNearest store)).countP scoreMeets ≠ 0 := by
    intro h0
    exact List.countP_eq_zero.mp h0 _ (List.mem_map_of_mem _ hv) hsm
  have hc : coherenceGuard store batch =
      UploadOutcome.rejected
        ((batch.map (queryNearest store)).countP scoreMeets)
        (maxSim (batch.map (queryNearest store))) := by
    simp only [coherenceGuard]
    rw [if_neg hne]
  exact ⟨by simp [ingest, hc], by simp [ingest, hc]⟩

/-- Witness for C2: a batch whose first chunk scores 0.99 and second
scores 0.10 inserts nothing and is rejected with duplicate chunk count
1 and maximum similarity 0.99. -/
theorem atomic_rejection_witness :
    (ingest storeMixed [[(1 : ℚ)], [2]]).store.collection = storeMixed.collection ∧
    (ingest storeMixed [[(1 : ℚ)], [2]]).outcome =
      UploadOutcome.rejected 1 (99 / 100) := by
  have hqA : queryNearest storeMixed [1] = some (99 / 100) := by
    norm_num [queryNearest, storeMixed]
  have hqB : queryNearest storeMixed [2] = some (1 / 10) := by
    norm_num [queryNearest, storeMixed]
  have hsA : scoreMeets (some ((99 : ℚ) / 100)) = true :=
    decide_eq_true (by norm_num [THRESHOLD])
  have hsB : scoreMeets (some ((1 : ℚ) / 10)) = false :=
    decide_eq_false (by norm_num [THRESHOLD])
  have hA : scoreMeets (queryNearest storeMixed [1]) = true := by rw [hqA]; exact hsA
  have h := atomic_rejection storeMixed [[(1 : ℚ)], [2]] ⟨[1], by simp, hA⟩
  refine ⟨h.1, ?_⟩
  rw [h.2]
  have hmap : List.map (queryNearest storeMixed) [[(1 : ℚ)], [2]] =
      [some (99 / 100), some (1 / 10)] := by
    rw [List.map_cons, List.map_cons, List.map_nil, hqA, hqB]
  rw [hmap]
  have hcount : List.countP scoreMeets [some ((99 : ℚ) / 100), some (1 / 10)] = 1 := by
    rw [List.countP_cons, List.countP_cons, List.countP_nil, hsA, hsB]
    simp
  have hmax : maxSim [some ((99 : ℚ) / 100), some (1 / 10)] = 99 / 100 := by
    show max (max 0 ((99 : ℚ) / 100)) (1 / 10) = 99 / 100
    rw [max_eq_right (by norm_num : (0 : ℚ) ≤ 99 / 100)]
    exact max_eq_left (by norm_num : (1 : ℚ) / 10 ≤ 99 / 100)
  rw [hcount, hmax]

/-- Claim C3: an upload into a collection with zero prior vectors is always
accepted, whatever the content: the nearest-neighbour query against an
empty collection returns no match rather than an error, so no chunk
can meet the threshold. -/
theorem empty_collection_accepts :
    ∀ (sim : EmbeddingVector → EmbeddingVector → ℚ)
      (batch : List EmbeddingVector) (v : EmbeddingVector),
      queryNearest ⟨[], sim⟩ v = none ∧
      coherenceGuard ⟨[], sim⟩ batch = UploadOutcome.accepted batch.length := by
  intro sim batch v
  have hq : ∀ w, queryNearest ⟨[], sim⟩ w = none := fun _ => rfl
  refine ⟨rfl, ?_⟩
  simp [coherenceGuard, hq, scoreMeets, List.countP_map, Function.comp]

/-- Claim C4: a file is supported exactly when its lowercased name ends with
one of .pdf, .md, .txt, .json; for any other file handleFile only sets
the unsupported-format error and never issues the upload request, so
no embedding work can start. -/
theorem extension_guard :
    ∀ (name : String) (result : RequestResult),
      (isAllowed name = true ↔
        (suffixMatch (name.data.map Char.toLower) ".pdf".data = true ∨
         suffixMatch (name.data.map Char.toLower) ".md".data = true ∨
         suffixMatch (name.data.map Char.toLower) ".txt".data = true ∨
         suffixMatch (name.data.map Char.toLower) ".json".data = true)) ∧
      (isAllowed name = false →
        handleFile name result = [UploadEvent.errorSet "Unsupported file type."] ∧
        UploadEvent.requestIssued ∉ handleFile name result) := by
  intro name result
  constructor
  · simp [isAllowed, allowedExtensions, or_assoc]
  · intro h
    have he : handleFile name result = [UploadEvent.errorSet "Unsupported file type."] := by
      simp [handleFile, h]
    refine ⟨he, ?_⟩
    rw [he]
    simp

/-- Witness for C4: a .csv file is not supported, its trace is only
the error message, and no request is ever issued for it. -/
theorem extension_guard_witness :
    isAllowed "data.csv" = false ∧
    handleFile "data.csv" (RequestResult.failure none) =
      [UploadEvent.errorSet "Unsupported file type."] ∧
    UploadEvent.requestIssued ∉ handleFile "data.csv" (RequestResult.failure none) := by
  have h := (extension_guard "data.csv" (RequestResult.failure none)).2 (by decide)
  exact ⟨by decide, h.1, h.2⟩

/-- Claim C5: after a valid setup the status reports configured together
with exactly the submitted identity and collection name; the status
view is independent of the api_key in every state (and has no api_key
field at all); with no record it reports unconfigured and omits the
other fields. -/
theorem status_after_setup :
    (∀ (st : Option VaultRecord) (r : VaultRecord), validRecord r = true →
      vaultSetup st r = Except.ok (some r) ∧
      vaultStatus (some r) = ⟨true, some r.identity, some r.collection_name⟩) ∧
    (∀ (r : VaultRecord) (k : String),
      vaultStatus (some { r with api_key := k }) = vaultStatus (some r)) ∧
    vaultStatus none = ⟨false, none, none⟩ := by
  refine ⟨?_, ?_, rfl⟩
  · intro st r h
    exact ⟨by simp [vaultSetup, h], rfl⟩
  · intro r k
    rfl

/-- Witness for C5: a concrete valid setup input, its successful
setup, and the resulting status view. -/
theorem status_after_setup_witness :
    validRecord ⟨"https://tunnel.example.com", "token", "pof", "David Lowe"⟩ = true ∧
    vaultSetup none ⟨"https://tunnel.example.com", "token", "pof", "David Lowe"⟩ =
      Except.ok (some ⟨"https://tunnel.example.com", "token", "pof", "David Lowe"⟩) ∧
    vaultStatus (some ⟨"https://tunnel.example.com", "token", "pof", "David Lowe"⟩) =
      ⟨true, some "David Lowe", some "pof"⟩ := by
  have h := status_after_setup.1 none
    ⟨"https://tunnel.example.com", "token", "pof", "David Lowe"⟩ (by decide)
  exact ⟨by decide, h.1, h.2⟩

/-- Claim C6: reset always succeeds, from any prior state, leaves the vault
unconfigured (status reports configured = false), and is idempotent —
resetting an already-unconfigured vault is the same no-op success. -/
theorem reset_idempotent :
    ∀ st : Option VaultRecord,
      vaultReset st = Except.ok none ∧
      vaultStatus none = ⟨false, none, none⟩ ∧
      vaultReset none = vaultReset st :=
  fun _ => ⟨rfl, rfl, rfl⟩

/-- Claim C9: the identity field of SetupForm is initialised to "David
Lowe", and a fresh setup in which the user fills only the other three
fields submits exactly that identity. -/
theorem identity_default :
    initialSetupFormState.identity = "David Lowe" ∧
    ∀ u a c : String,
      (buildPayload (setCollectionName (setApiKey (setCloudflareUrl
        initialSetupFormState u) a) c)).identity = "David Lowe" :=
  ⟨rfl, fun _ _ _ => rfl⟩

/-- Claim C10: for an allowed file, handleFile invokes onUploadStart exactly
once before issuing the request and onUploadComplete exactly once
after it, on both the success and the failure path; for a disallowed
file neither callback is invoked. -/
theorem callback_discipline :
    ∀ (name : String) (result : RequestResult),
      (isAllowed name = true →
        ∃ tail,
          handleFile name result =
            [UploadEvent.uploadStartCb, UploadEvent.errorCleared,
             UploadEvent.requestIssued] ++ tail ∧
          tail.countP isStartEvent = 0 ∧
          tail.countP isCompleteEvent = 1 ∧
          (handleFile name result).countP isStartEvent = 1 ∧
          (handleFile name result).countP isCompleteEvent = 1) ∧
      (isAllowed name = false →
        (handleFile name result).countP isStartEvent = 0 ∧
        (handleFile name result).countP isCompleteEvent = 0) := by
  intro name result
  constructor
  · intro h
    cases result with
    | success data =>
      refine ⟨[UploadEvent.uploadCompleteCb (uploadMessage data)], ?_, ?_, ?_, ?_, ?_⟩ <;>
        simp [handleFile, h, isStartEvent, isCompleteEvent, List.countP_cons]
    | failure detail =>
      refine ⟨[UploadEvent.errorSet (detail.getD "Upload failed."),
        UploadEvent.uploadCompleteCb "Upload failed."], ?_, ?_, ?_, ?_, ?_⟩ <;>
        simp [handleFile, h, isStartEvent, isCompleteEvent, List.countP_cons]
  · intro h
    constructor <;>
      simp [handleFile, h, isStartEvent, isCompleteEvent, List.countP_cons]

/-- Witness for C10: a .txt upload whose request fails invokes each
callback exactly once; a .csv upload invokes neither. -/
theorem callback_discipline_witness :
    ((handleFile "a.txt" (RequestResult.failure none)).countP isStartEvent = 1 ∧
     (handleFile "a.txt" (RequestResult.failure none)).countP isCompleteEvent = 1) ∧
    ((handleFile "b.csv" (RequestResult.failure none)).countP isStartEvent = 0 ∧
     (handleFile "b.csv" (RequestResult.failure none)).countP isCompleteEvent = 0) := by
  obtain ⟨t, ht, h1, h2, h3, h4⟩ :=
    (callback_discipline "a.txt" (RequestResult.failure none)).1 (by decide)
  exact ⟨⟨h3, h4⟩, (callback_discipline "b.csv" (RequestResult.failure none)).2 (by decide)⟩

/-- Applying the keystream XOR twice restores the input bytes. -/
theorem xorStream_xorStream (k : Nat) :
    ∀ (i : Nat) (bs : Bytes), xorStream k i (xorStream k i bs) = bs := by
  intro i bs
  induction bs generalizing i with
  | nil => rfl
  | cons b rest ih => simp [xorStream, Nat.xor_cancel_right, ih]

/-- The byte-sequence encoding used by the tag is injective. -/
theorem encodeBytes_injective :
    ∀ {m1 m2 : Bytes}, encodeBytes m1 = encodeBytes m2 → m1 = m2 := by
  intro m1
  induction m1 with
  | nil =>
    intro m2 h
    cases m2 with
    | nil => rfl
    | cons c cs => simp [encodeBytes] at h
  | cons b bs ih =>
    intro m2 h
    cases m2 with
    | nil => simp [encodeBytes] at h
    | cons c cs =>
      simp only [encodeBytes, Nat.add_right_cancel_iff] at h
      obtain ⟨hb, he⟩ := Nat.pair_eq_pair.mp h
      rw [hb, ih he]

/-- Claim C7: encrypting then decrypting a VaultRecord's bytes with the same
key yields byte-identical values; a ciphertext decrypts successfully
only when it is the genuine encryption of the returned plaintext, and
tampering with either the body or the tag of a genuine ciphertext
makes decryption fail with an integrity error (none) instead of
returning corrupted data. -/
theorem fernet_roundtrip_integrity :
    (∀ (k : Nat) (r : VaultRecord),
      fernetDecrypt k (fernetEncrypt k (vaultRecordBytes r)) =
        some (vaultRecordBytes r)) ∧
    (∀ (k : Nat) (c : Ciphertext) (m : Bytes),
      fernetDecrypt k c = some m → c = fernetEncrypt k m) ∧
    (∀ (k : Nat) (m : Bytes) (t : Nat), t ≠ macTag k m →
      fernetDecrypt k ⟨(fernetEncrypt k m).body, t⟩ = none) ∧
    (∀ (k : Nat) (m b : Bytes), b ≠ (fernetEncrypt k m).body →
      fernetDecrypt k ⟨b, (fernetEncrypt k m).tag⟩ = none) := by
  refine ⟨?_, ?_, ?_, ?_⟩
  · intro k r
    simp [fernetDecrypt, fernetEncrypt, xorStream_xorStream]
  · intro k c m h
    by_cases ht : macTag k (xorStream k 0 c.body) = c.tag
    · simp only [fernetDecrypt, ht, if_pos, Option.some.injEq] at h
      cases c with
      | mk body tag =>
        simp only at ht
        subst h
        simp [fernetEncrypt, xorStream_xorStream, ht]
    · simp [fernetDecrypt, ht] at h
  · intro k m t hne
    simp only [fernetDecrypt, fernetEncrypt, xorStream_xorStream]
    exact if_neg fun h => hne h.symm
  · intro k m b hb
    have hm : xorStream k 0 b ≠ m := by
      intro he
      apply hb
      have h2 : xorStream k 0 (xorStream k 0 b) = xorStream k 0 m := by rw [he]
      rw [xorStream_xorStream] at h2
      simpa [fernetEncrypt] using h2
    simp only [fernetDecrypt, fernetEncrypt]
    exact if_neg fun h =>
      hm (encodeBytes_injective (Nat.pair_eq_pair.mp h).2)

/-- Witness for C7: a concrete ciphertext decrypts back to its
plaintext via the genuine-decryption direction, and concrete tag and
body tamperings are both refused. -/
theorem fernet_roundtrip_integrity_witness :
    fernetEncrypt 0 [1] = fernetEncrypt 0 [1] ∧
    fernetDecrypt 0 ⟨(fernetEncrypt 0 [1]).body, 5⟩ = none ∧
    fernetDecrypt 0 ⟨[0], (fernetEncrypt 0 [1]).tag⟩ = none :=
  ⟨fernet_roundtrip_integrity.2.1 0 (fernetEncrypt 0 [1]) [1] (by decide),
   fernet_roundtrip_integrity.2.2.1 0 [1] 5 (by decide),
   fernet_roundtrip_integrity.2.2.2 0 [1] [0] (by decide)⟩

/-- Claim C8: an outcome is never both rejected and accepted, the rendered
response carries a truthy duplicate message exactly for rejections,
and the absence of the duplicate message means an accepted outcome
whose inserted-vector count is reported. -/
theorem outcome_exclusive :
    ∀ o : UploadOutcome,
      ¬((∃ n s, o = UploadOutcome.rejected n s) ∧
        (∃ n, o = UploadOutcome.accepted n)) ∧
      (truthyMsg (renderOutcome o).duplicate_message = true ↔
        ∃ n s, o = UploadOutcome.rejected n s) ∧
      ((renderOutcome o).duplicate_message = none ↔
        ∃ n, o = UploadOutcome.accepted n ∧
          (renderOutcome o).inserted_vectors = some n) := by
  intro o
  have ht : truthyMsg (some duplicateNotice) = true := by decide
  cases o with
  | rejected n s =>
    refine ⟨by simp, ?_, by simp [renderOutcome]⟩
    simp [renderOutcome, ht]
  | accepted n =>
    refine ⟨by simp, ?_, by simp [renderOutcome]⟩
    simp [renderOutcome, truthyMsg]

/-- Witness for C1: the rejection criterion applied at a concrete
store whose best match scores exactly 0.98 yields a rejection. -/
theorem coherence_threshold_inclusive_witness :
    (coherenceGuard storeAt98 [[1]]).isRejected = true :=
  (coherence_threshold_inclusive.1 storeAt98 [[1]]).mpr
    ⟨[1], by simp, 98 / 100, by norm_num [queryNearest, storeAt98],
     by norm_num [THRESHOLD]⟩

/-- Witness for C8: at concrete outcomes, a rejection renders a truthy
duplicate message and an acceptance renders none. -/
theorem outcome_exclusive_witness :
    truthyMsg (renderOutcome (UploadOutcome.rejected 2 (99 / 100))).duplicate_message = true ∧
    (renderOutcome (UploadOutcome.accepted 3)).duplicate_message = none :=
  ⟨(outcome_exclusive (UploadOutcome.rejected 2 (99 / 100))).2.1.mpr ⟨2, 99 / 100, rfl⟩,
   (outcome_exclusive (UploadOutcome.accepted 3)).2.2.mpr ⟨3, rfl, rfl⟩⟩
